import Mathlib

/-!
Verification of the privileged command execution core of the
arch-config-tool repository (core/command_executor.py) and of the
GUI worker that streams command output (gui/main_window.py,
CommandWorker.run).

The Python code is shallowly embedded: pure string manipulation is
translated directly; the interaction with the operating system and
with the Qt dialogs is captured by an explicit environment value
(`Env`), and the concurrent stdout/stderr reader threads plus the
supervising poll loop of `execute_command` are modelled by a schedule
of loop iterations (`Step`), one entry per iteration of the Python
`while` loop.  Wall-clock time is modelled in whole seconds; the
phase before the process is spawned is treated as instantaneous, so
the `time.time() - start_time` expressions of the early return paths
evaluate to 0 in the model.
-/

namespace ArchTool

/-- Python whitespace characters, as used by str.strip and str.split. -/
def isPySpace (c : Char) : Bool :=
  c = ' ' || c = '\t' || c = '\n' || c = '\x0d' || c = '\x0b' || c = '\x0c'

/-- Python str.lower (the source only ever lowercases ASCII command text). -/
def pyLower (s : String) : String :=
  ⟨s.data.map Char.toLower⟩

/-- Python str.strip with no argument: remove leading and trailing whitespace. -/
def pyStrip (s : String) : String :=
  ⟨((s.data.dropWhile isPySpace).reverse.dropWhile isPySpace).reverse⟩

/-- Python str.rstrip with no argument: remove trailing whitespace. -/
def pyRstrip (s : String) : String :=
  ⟨(s.data.reverse.dropWhile isPySpace).reverse⟩

/-- Python substring test: needle in haystack. -/
def pyContains (needle haystack : String) : Bool :=
  decide (needle.data <:+: haystack.data)

/-- Python str.startswith: character-prefix test. -/
def pyStartsWith (s pre : String) : Bool :=
  decide (pre.data <+: s.data)

/-- Helper for pySplit: walks the characters, accumulating the current
(reversed) word. -/
def pySplitAux : List Char → List Char → List String
  | [], acc => if acc.isEmpty then [] else [⟨acc.reverse⟩]
  | c :: cs, acc =>
    if isPySpace c then
      if acc.isEmpty then pySplitAux cs []
      else (⟨acc.reverse⟩ : String) :: pySplitAux cs []
    else pySplitAux cs (c :: acc)

/-- Python str.split with no argument: split on whitespace runs and drop
empty pieces. -/
def pySplit (s : String) : List String :=
  pySplitAux s.data []

/-- Python newline-join of a list of lines, as in the backslash-n join of
stdout_lines and stderr_lines. -/
def joinLines (lines : List String) : String :=
  String.intercalate "\n" lines

/-- CommandStatus enum of command_executor.py. -/
inductive CommandStatus
  | pending
  | running
  | success
  | failed
  | cancelled
  | needs_password
  | locked
deriving DecidableEq, Repr

/-- CommandResult dataclass of command_executor.py. -/
structure CommandResult where
  command : String
  status : CommandStatus
  return_code : Int
  stdout : String
  stderr : String
  execution_time : Nat
deriving DecidableEq, Repr

/-- The dangerous_patterns list of CommandExecutor.is_command_safe. -/
def dangerous_patterns : List String :=
  ["rm -rf /", "dd if=", "mkfs.", "fdisk", "parted",
   ":()\x7b :|:& \x7d;:", "chmod -R 777 /", "format", "erase"]

/-- CommandExecutor.is_command_safe: the command is safe when its
lowercased text contains none of the dangerous patterns.  There is no
allowlist of executables anywhere in the source file; this denylist is
the entire validation. -/
def is_command_safe (command : String) : Bool :=
  let command_lower := pyLower command
  !(dangerous_patterns.any fun pattern => pyContains pattern command_lower)

/-- The test guarding the pacman pre-flight block of execute_command:
pacman in command.lower(). -/
def mentions_pacman (command : String) : Bool :=
  pyContains "pacman" (pyLower command)

/-- The mutable fields of a CommandExecutor instance that
execute_command reads or writes.  current_process is abstracted to an
option on a unit handle. -/
structure ExecState where
  current_process : Option Unit
  is_running : Bool
  should_cancel : Bool
  sudo_password : Option String
  password_attempts : Nat
  max_password_attempts : Nat
deriving DecidableEq, Repr

/-- Field values set by CommandExecutor.__init__. -/
def ExecState.init : ExecState :=
  { current_process := none
    is_running := false
    should_cancel := false
    sudo_password := none
    password_attempts := 0
    max_password_attempts := 3 }

/-- Outcome of the sudo -S true probe run by validate_sudo_password:
exit code 0, a nonzero exit code, or a raised exception (which the
Python code catches and turns into False without counting an attempt). -/
inductive VOutcome
  | ok
  | bad_password
  | raises
deriving DecidableEq, Repr

/-- One iteration of the supervising while loop of execute_command.
cancel is the value of should_cancel observed at the top of the
iteration; elapsed is time.time() - start_time in whole seconds at the
timeout check; out_item and err_item are what get_nowait yields from
the stdout and stderr queues: none is queue.Empty, some none is the
end-of-stream sentinel, some (some line) is an rstripped output line. -/
structure Step where
  cancel : Bool
  elapsed : Nat
  out_item : Option (Option String)
  err_item : Option (Option String)
deriving DecidableEq, Repr

/-- Observable behaviour of a successfully spawned child process:
the iteration schedule seen by the supervising loop, the exit code
collected by wait, whether the process is still alive one second
after SIGTERM (terminate_process then also sends SIGKILL), and the
elapsed time when the final CommandResult is assembled. -/
structure ProcBehavior where
  steps : List Step
  return_code : Int
  alive_after_term : Bool
  final_elapsed : Nat

/-- What subprocess.Popen does for a given argument list: raise, or
produce a process with the given observable behaviour. -/
inductive SpawnBehavior
  | raises (msg : String)
  | proc (p : ProcBehavior)

/-- The external world as seen by one execute_command call: the pacman
lock file, the presence of a QApplication instance, the password the
user types into the dialog (none when cancelled, some "" when
confirmed empty), the outcome of the sudo password probe, and the
behaviour of Popen per argument list. -/
structure Env where
  pacman_lock_exists : Bool
  qapp : Bool
  dialog_password : Option String
  validate : String → VOutcome
  spawn : List String → SpawnBehavior

/-- Exceptions that can escape the embedded code.  nameError models the
uncaught NameError raised at the QMessageBox reference in the pacman
lock branch of execute_command: the module imports QInputDialog and
QLineEdit from PyQt6.QtWidgets but never QMessageBox, so the name
lookup fails before the dialog arguments are even evaluated, and the
rest of that branch (lines 190-217 of the source, the yes/no dialog,
remove_pacman_lock and the two LOCKED results) is unreachable code.
loop_diverged is a modelling artifact: it marks an iteration schedule
that ends while the Python loop would still be polling; no claim
concerns that case. -/
inductive PyErr
  | nameError (name : String)
  | loop_diverged
deriving DecidableEq, Repr

/-- CommandExecutor.get_sudo_password.  Returns the cached password
when it is truthy and the attempt counter is below the cap; otherwise
shows the input dialog when a QApplication exists and caches a truthy
entered password. -/
def get_sudo_password (st : ExecState) (env : Env) : Option String × ExecState :=
  match st.sudo_password with
  | some cached =>
    if cached ≠ "" ∧ st.password_attempts < st.max_password_attempts then
      (some cached, st)
    else
      get_sudo_password_dialog st env
  | none => get_sudo_password_dialog st env
where
  /-- The QInputDialog branch of get_sudo_password. -/
  get_sudo_password_dialog (st : ExecState) (env : Env) : Option String × ExecState :=
    if env.qapp then
      match env.dialog_password with
      | some password =>
        if password ≠ "" then
          (some password,
           { st with sudo_password := some password, password_attempts := 0 })
        else (none, st)
      | none => (none, st)
    else (none, st)

/-- CommandExecutor.validate_sudo_password: true on a zero exit of the
sudo -S true probe; a nonzero exit increments password_attempts; a
raised exception is caught and yields False without counting. -/
def validate_sudo_password (st : ExecState) (env : Env) (password : String) :
    Bool × ExecState :=
  match env.validate password with
  | .ok => (true, st)
  | .bad_password => (false, { st with password_attempts := st.password_attempts + 1 })
  | .raises => (false, st)

/-- Result of prepare_command_with_sudo: the Python function returns
either (None, reason) or (cmd_list, password_input). -/
inductive PrepOutcome
  | rejected (reason : String)
  | ready (cmd_list : List String) (password_input : Option String)
deriving DecidableEq, Repr

/-- CommandExecutor.prepare_command_with_sudo.  Note that this function
never receives the use_sudo flag of execute_command: elevation is
decided only by whether the stripped command starts with the four
characters sudo. -/
def prepare_command_with_sudo (st : ExecState) (env : Env) (command : String) :
    PrepOutcome × ExecState :=
  let needs_sudo := pyStartsWith (pyStrip command) "sudo"
  if needs_sudo then
    let cmd_without_sudo := pyStrip ((pyStrip command).drop 4)
    let cmd_list := ["sudo", "-S"] ++ pySplit cmd_without_sudo
    match get_sudo_password st env with
    | (none, st1) => (.rejected "Password required but not provided", st1)
    | (some password, st1) =>
      if password = "" then (.rejected "Password required but not provided", st1)
      else
        match validate_sudo_password st1 env password with
        | (true, st2) => (.ready cmd_list (some (password ++ "\n")), st2)
        | (false, st2) =>
          let st3 :=
            if st2.max_password_attempts ≤ st2.password_attempts then
              { st2 with sudo_password := none }
            else st2
          (.rejected "Invalid password", st3)
  else
    (.ready (pySplit command) none, st)

/-- State of the supervising loop of execute_command: the accumulated
stdout and stderr lines, the two end-of-stream flags, and the list of
(output_type, text) pairs forwarded so far to output_received /
output_callback.  Lines are forwarded exactly as dequeued; the loop
performs no filtering or redaction of any kind. -/
structure LoopState where
  stdout_lines : List String
  stderr_lines : List String
  stdout_finished : Bool
  stderr_finished : Bool
  forwarded : List (String × String)
deriving DecidableEq, Repr

/-- The stdout_queue.get_nowait block of one loop iteration. -/
def consume_out (item : Option (Option String)) (ls : LoopState) : LoopState :=
  match item with
  | none => ls
  | some none => { ls with stdout_finished := true }
  | some (some line) =>
    { ls with
        stdout_lines := ls.stdout_lines ++ [line]
        forwarded := ls.forwarded ++ [("stdout", line)] }

/-- The stderr_queue.get_nowait block of one loop iteration. -/
def consume_err (item : Option (Option String)) (ls : LoopState) : LoopState :=
  match item with
  | none => ls
  | some none => { ls with stderr_finished := true }
  | some (some line) =>
    { ls with
        stderr_lines := ls.stderr_lines ++ [line]
        forwarded := ls.forwarded ++ [("stderr", line)] }

/-- How the supervising loop of execute_command was left. -/
inductive MonitorExit
  | loop_done
  | cancel_break
  | timed_out (elapsed : Nat)
  | fuel_out
deriving DecidableEq, Repr

/-- The supervising while loop of execute_command: per iteration,
check should_cancel, then the timeout (Python: if timeout and
time.time() - start_time greater than timeout, where a timeout of 0 is
falsy and disables the check), then poll one item from each of the
stdout and stderr queues. -/
def monitor (timeout : Nat) (steps : List Step) (ls : LoopState) :
    MonitorExit × LoopState :=
  match steps with
  | [] =>
    if ls.stdout_finished && ls.stderr_finished then (.loop_done, ls)
    else (.fuel_out, ls)
  | s :: rest =>
    if ls.stdout_finished && ls.stderr_finished then (.loop_done, ls)
    else if s.cancel then (.cancel_break, ls)
    else if timeout != 0 && timeout < s.elapsed then (.timed_out s.elapsed, ls)
    else monitor timeout rest (consume_err s.err_item (consume_out s.out_item ls))

/-- Externally visible side effects of one execute_command call:
the argument lists passed to subprocess.Popen, the number of child
processes actually created, the (output_type, text) pairs forwarded to
the output callback, and the signals sent to the child process group
by terminate_process (15 is SIGTERM, 9 is SIGKILL). -/
structure Effects where
  popen_calls : List (List String)
  processes_created : Nat
  forwarded : List (String × String)
  term_signals : List Nat
deriving DecidableEq, Repr

/-- No side effects. -/
def noEffects : Effects :=
  { popen_calls := [], processes_created := 0, forwarded := [], term_signals := [] }

/-- Everything execute_command produces: its return value or the
exception it raises, the executor fields after the call, and the side
effects. -/
structure ExecOutcome where
  ret : Except PyErr CommandResult
  state : ExecState
  effects : Effects
deriving Repr

/-- The finally block of execute_command. -/
def execFinally (st : ExecState) (cancelled : Bool) : ExecState :=
  { st with is_running := false, current_process := none, should_cancel := cancelled }

/-- The supervising loop starts with no lines collected, both streams
open and nothing forwarded. -/
def initLoopState : LoopState :=
  { stdout_lines := [], stderr_lines := []
    stdout_finished := false, stderr_finished := false, forwarded := [] }

/-- The signals terminate_process sends to the process group: SIGTERM,
then SIGKILL when the process is still alive after the one second
grace period. -/
def termSignals (p : ProcBehavior) : List Nat :=
  15 :: (if p.alive_after_term then [9] else [])

/-- The try/except/finally body of execute_command, entered after
validation, the pacman pre-flight and prepare_command_with_sudo.  It
sets is_running and clears should_cancel, calls subprocess.Popen
(an empty argument list makes Popen raise IndexError before any child
process exists; the except block turns any exception into a FAILED
result with the error text), then runs the supervising loop and
assembles the result; the finally block always clears is_running and
current_process. -/
def run_process (st : ExecState) (env : Env) (command : String) (timeout : Nat)
    (cmd_list : List String) : ExecOutcome :=
  if cmd_list.isEmpty then
    { ret := .ok
        { command := command, status := .failed, return_code := -1, stdout := ""
          stderr := "Execution error: list index out of range", execution_time := 0 }
      state := execFinally st false
      effects := { noEffects with popen_calls := [cmd_list] } }
  else
    match env.spawn cmd_list with
    | .raises msg =>
      { ret := .ok
          { command := command, status := .failed, return_code := -1, stdout := ""
            stderr := "Execution error: " ++ msg, execution_time := 0 }
        state := execFinally st false
        effects := { noEffects with popen_calls := [cmd_list] } }
    | .proc p =>
      match monitor timeout p.steps initLoopState with
      | (.timed_out e, ls) =>
        { ret := .ok
            { command := command, status := .failed, return_code := -1
              stdout := joinLines ls.stdout_lines
              stderr := joinLines ls.stderr_lines ++ "\nTimeout reached"
              execution_time := e }
          state := execFinally st false
          effects :=
            { popen_calls := [cmd_list], processes_created := 1
              forwarded := ls.forwarded, term_signals := termSignals p } }
      | (.cancel_break, ls) =>
        { ret := .ok
            { command := command, status := .cancelled
              return_code := p.return_code
              stdout := joinLines ls.stdout_lines
              stderr := joinLines ls.stderr_lines
              execution_time := p.final_elapsed }
          state := execFinally st true
          effects :=
            { popen_calls := [cmd_list], processes_created := 1
              forwarded := ls.forwarded, term_signals := termSignals p } }
      | (.loop_done, ls) =>
        { ret := .ok
            { command := command
              status := if p.return_code = 0 then .success else .failed
              return_code := p.return_code
              stdout := joinLines ls.stdout_lines
              stderr := joinLines ls.stderr_lines
              execution_time := p.final_elapsed }
          state := execFinally st false
          effects :=
            { popen_calls := [cmd_list], processes_created := 1
              forwarded := ls.forwarded, term_signals := [] } }
      | (.fuel_out, ls) =>
        { ret := .error .loop_diverged
          state := execFinally st false
          effects :=
            { popen_calls := [cmd_list], processes_created := 1
              forwarded := ls.forwarded, term_signals := [] } }

/-- CommandExecutor.execute_command.  The use_sudo parameter is
accepted with default True but never read anywhere in the body; the
timeout default is 300 seconds.  Order of the source: the
is_command_safe denylist check (rejection: FAILED, return code -1,
empty stdout, the blocked message, execution time 0, no Popen call);
the pacman lock pre-flight, whose dialog branch raises an uncaught
NameError because QMessageBox is never imported; the
prepare_command_with_sudo step (rejection: NEEDS_PASSWORD with the
reason text); then the spawn/monitor body. -/
def execute_command (st : ExecState) (env : Env) (command : String)
    (use_sudo : Bool := true) (timeout : Nat := 300) : ExecOutcome :=
  if !is_command_safe command then
    { ret := .ok
        { command := command, status := .failed, return_code := -1, stdout := ""
          stderr := "Command blocked for safety reasons", execution_time := 0 }
      state := st
      effects := noEffects }
  else if mentions_pacman command && env.pacman_lock_exists && env.qapp then
    { ret := .error (.nameError "QMessageBox"), state := st, effects := noEffects }
  else
    match prepare_command_with_sudo st env command with
    | (.rejected reason, st1) =>
      { ret := .ok
          { command := command, status := .needs_password, return_code := -1
            stdout := "", stderr := reason, execution_time := 0 }
        state := st1
        effects := noEffects }
    | (.ready cmd_list _password_input, st1) =>
      run_process st1 env command timeout cmd_list

/-- The line-emission filter of CommandWorker.run in gui/main_window.py
(sudo branch): for each raw line read from the pipe, skip it when the
line is empty; otherwise rstrip it and emit (kind, clean_line) only
when clean_line is non-empty and the sudo password is not a substring
of it.  Lines containing the cached credential are therefore
suppressed, not redacted.  The should_stop early exit is not modelled
(no stop request arrives in a modelled run). -/
def command_worker_emit (sudo_password : String) (kind : String)
    (lines : List String) : List (String × String) :=
  lines.filterMap fun line =>
    if line = "" then none
    else
      let clean_line := pyRstrip line
      if clean_line ≠ "" ∧ pyContains sudo_password clean_line = false then
        some (kind, clean_line)
      else none

/-- One entry of CommandQueue.queue: the Python dict with keys command,
description, status and result; status holds the literal strings
pending, running, completed, failed. -/
structure QueueEntry where
  command : String
  description : String
  status : String
  result : Option CommandResult
deriving DecidableEq, Repr

/-- The fields of a CommandQueue instance. -/
structure CommandQueue where
  queue : List QueueEntry
  is_running : Bool
  current_index : Nat
deriving DecidableEq, Repr

/-- CommandQueue.__init__ (the executor reference is passed separately
to execute_queue in this embedding). -/
def CommandQueue.init : CommandQueue :=
  { queue := [], is_running := false, current_index := 0 }

/-- CommandQueue.add_command: append a pending entry. -/
def add_command (q : CommandQueue) (command : String) (description : String := "") :
    CommandQueue :=
  { q with
      queue := q.queue ++
        [{ command := command, description := description
           status := "pending", result := none }] }

/-- The for loop of CommandQueue.execute_queue over the remaining
entries, where i is the index of the first remaining entry.  Per
entry: set current_index, mark it running, call
executor.execute_command with its command (default use_sudo and
timeout), store the result, mark completed on SUCCESS and continue, or
mark failed and break.  A raised exception propagates, leaving the
current entry marked running.  The returned option is the last value
assigned to current_index, none when no entry was processed.  The
is_running check at the top of the Python loop body only fires when
cancel_queue is called from another thread while the loop runs, which
a single-threaded model has no way to trigger, so it is not modelled. -/
def execute_queue_loop (env : Env) :
    List QueueEntry → Nat → ExecState →
    Except PyErr Unit × List QueueEntry × Option Nat × ExecState
  | [], _, st => (.ok (), [], none, st)
  | e :: rest, i, st =>
    let e1 := { e with status := "running" }
    let out := execute_command st env e.command
    match out.ret with
    | .error err => (.error err, e1 :: rest, some i, out.state)
    | .ok result =>
      if result.status = CommandStatus.success then
        let e2 := { e1 with result := some result, status := "completed" }
        match execute_queue_loop env rest (i + 1) out.state with
        | (r, rest2, last, st2) => (r, e2 :: rest2, some (last.getD i), st2)
      else
        (.ok (),
         { e1 with result := some result, status := "failed" } :: rest,
         some i, out.state)

/-- CommandQueue.execute_queue: return False at once when already
running; otherwise set is_running, reset current_index to 0, run the
loop, clear is_running and return True.  When execute_command raises,
the exception propagates and is_running stays True because the
trailing assignment is never reached. -/
def execute_queue (q : CommandQueue) (env : Env) (st : ExecState) :
    Except PyErr Bool × CommandQueue × ExecState :=
  if q.is_running then (.ok false, q, st)
  else
    match execute_queue_loop env q.queue 0 st with
    | (.error err, entries, last, st1) =>
      (.error err,
       { queue := entries, is_running := true, current_index := last.getD 0 },
       st1)
    | (.ok _, entries, last, st1) =>
      (.ok true,
       { queue := entries, is_running := false, current_index := last.getD 0 },
       st1)

/-- CommandQueue.get_progress: entries whose status is completed or
failed, against the total. -/
def get_progress (q : CommandQueue) : Nat × Nat :=
  ((q.queue.filter fun cmd => cmd.status = "completed" || cmd.status = "failed").length,
   q.queue.length)

/-! ### Concrete environments used by witnesses and counterexamples -/

/-- World with no pacman lock, no QApplication, no password dialog, a
password probe that accepts, and a Popen that raises. -/
def baseEnv : Env :=
  { pacman_lock_exists := false, qapp := false, dialog_password := none
    validate := fun _ => .ok, spawn := fun _ => .raises "boom" }

/-- World in which the pacman lock file exists and a QApplication
instance is running, so the lock dialog branch is reached. -/
def lockEnv : Env :=
  { baseEnv with pacman_lock_exists := true, qapp := true }

/-- A child process that emits nothing, closes both streams at once
and exits with code 0 after one second. -/
def okProc : ProcBehavior :=
  { steps := [{ cancel := false, elapsed := 0
                out_item := some none, err_item := some none }]
    return_code := 0, alive_after_term := false, final_elapsed := 1 }

/-- A child process that emits nothing and exits with code 1: an
ordinary command failure. -/
def failProc : ProcBehavior :=
  { steps := [{ cancel := false, elapsed := 0
                out_item := some none, err_item := some none }]
    return_code := 1, alive_after_term := false, final_elapsed := 1 }

/-- World whose child process behaves like okProc. -/
def runOkEnv : Env :=
  { baseEnv with spawn := fun _ => .proc okProc }

/-- World whose child process behaves like failProc. -/
def runFailEnv : Env :=
  { baseEnv with spawn := fun _ => .proc failProc }

/-- A child process that is still producing no output 301 seconds
after the spawn, so the default 300 second timeout fires. -/
def timeoutProc : ProcBehavior :=
  { steps := [{ cancel := false, elapsed := 301
                out_item := none, err_item := none }]
    return_code := 0, alive_after_term := false, final_elapsed := 301 }

/-- World whose child process behaves like timeoutProc. -/
def timeoutEnv : Env :=
  { baseEnv with spawn := fun _ => .proc timeoutProc }

/-- World in which the exact command ls succeeds and every other
command exits with code 1; used for the queue claims. -/
def queueEnv : Env :=
  { baseEnv with
      spawn := fun cmd_list =>
        if cmd_list = ["ls"] then .proc okProc else .proc failProc }

/-- A child process that prints the line hunter2 on stdout, which is
exactly the cached sudo credential of the credential claims, then
closes both streams and exits 0. -/
def credProc : ProcBehavior :=
  { steps :=
      [{ cancel := false, elapsed := 0
         out_item := some (some "hunter2"), err_item := none },
       { cancel := false, elapsed := 0
         out_item := some none, err_item := some none }]
    return_code := 0, alive_after_term := false, final_elapsed := 1 }

/-- World whose child process behaves like credProc. -/
def credentialEnv : Env :=
  { baseEnv with spawn := fun _ => .proc credProc }

/-- Executor state holding the cached credential hunter2. -/
def cachedCredState : ExecState :=
  { ExecState.init with sudo_password := some "hunter2" }

/-! ### Helper lemmas -/

/-- Whitespace characters are fixed by Char.toLower. -/
theorem toLower_of_pySpace {c : Char} (h : isPySpace c = true) :
    c.toLower = c := by
  simp only [isPySpace, Bool.or_eq_true, decide_eq_true_eq] at h
  rcases h with ((((h | h) | h) | h) | h) | h <;> subst h <;> decide

/-- Lowercasing an all-whitespace character list keeps it
all-whitespace. -/
theorem map_toLower_space {l : List Char} (h : ∀ c ∈ l, isPySpace c = true) :
    ∀ c ∈ l.map Char.toLower, isPySpace c = true := by
  intro c hc
  rcases List.mem_map.mp hc with ⟨d, hd, hdc⟩
  have := toLower_of_pySpace (h d hd)
  rw [← hdc, this]
  exact h d hd

/-- A pattern containing a non-whitespace character is not an infix of
an all-whitespace character list. -/
theorem not_infix_of_nonspace {pat l : List Char}
    (hl : ∀ c ∈ l, isPySpace c = true)
    (hp : ∃ c ∈ pat, isPySpace c = false) : ¬ (pat <:+: l) := by
  intro hinf
  rcases hp with ⟨c, hc, hcf⟩
  have := hl c (hinf.subset hc)
  rw [this] at hcf
  exact absurd hcf (by decide)

/-- If strip leaves nothing, every character of the string is
whitespace. -/
theorem allspace_of_pyStrip_empty {s : String} (h : pyStrip s = "") :
    ∀ c ∈ s.data, isPySpace c = true := by
  have hd : ((s.data.dropWhile isPySpace).reverse.dropWhile isPySpace).reverse
      = [] := congrArg String.data h
  rw [List.reverse_eq_nil_iff, List.dropWhile_eq_nil_iff] at hd
  have hdrop : ∀ c ∈ s.data.dropWhile isPySpace, isPySpace c = true := by
    intro c hc
    exact hd c (List.mem_reverse.mpr hc)
  intro c hc
  rw [← List.takeWhile_append_dropWhile (p := isPySpace) (l := s.data)] at hc
  rcases List.mem_append.mp hc with hc | hc
  · exact List.mem_takeWhile_imp hc
  · exact hdrop c hc

/-- Python split of an all-whitespace character list yields no words. -/
theorem pySplitAux_space {l : List Char} (h : ∀ c ∈ l, isPySpace c = true) :
    pySplitAux l [] = [] := by
  induction l with
  | nil => rfl
  | cons c cs ih =>
    have hc := h c (List.mem_cons_self c cs)
    simp only [pySplitAux, hc, if_true, List.isEmpty_nil]
    exact ih fun d hd => h d (List.mem_cons_of_mem c hd)

/-- Python split of a string that strips to empty yields no words. -/
theorem pySplit_of_strip_empty {s : String} (h : pyStrip s = "") :
    pySplit s = [] :=
  pySplitAux_space (allspace_of_pyStrip_empty h)

/-- An all-whitespace command passes the denylist check. -/
theorem is_command_safe_of_space {s : String}
    (h : ∀ c ∈ s.data, isPySpace c = true) : is_command_safe s = true := by
  have hlow : ∀ c ∈ (pyLower s).data, isPySpace c = true := map_toLower_space h
  simp only [is_command_safe, Bool.not_eq_true', List.any_eq_false]
  intro pat hpat
  simp only [pyContains, decide_eq_true_eq, decide_eq_false_iff_not]
  fin_cases hpat <;> exact not_infix_of_nonspace hlow (by decide)

/-- An all-whitespace command does not mention pacman. -/
theorem mentions_pacman_of_space {s : String}
    (h : ∀ c ∈ s.data, isPySpace c = true) : mentions_pacman s = false := by
  rw [mentions_pacman, pyContains, decide_eq_false_iff_not]
  exact not_infix_of_nonspace (map_toLower_space h) (by decide)

/-- get_sudo_password only touches the credential fields. -/
theorem get_sudo_password_preserves (st : ExecState) (env : Env) :
    (get_sudo_password st env).2.is_running = st.is_running ∧
    (get_sudo_password st env).2.current_process = st.current_process := by
  rw [get_sudo_password]
  simp only [get_sudo_password.get_sudo_password_dialog]
  repeat' split
  all_goals exact ⟨rfl, rfl⟩

/-- validate_sudo_password only touches the attempt counter. -/
theorem validate_sudo_password_preserves (st : ExecState) (env : Env) (pw : String) :
    (validate_sudo_password st env pw).2.is_running = st.is_running ∧
    (validate_sudo_password st env pw).2.current_process = st.current_process := by
  rw [validate_sudo_password]
  rcases env.validate pw <;> exact ⟨rfl, rfl⟩

/-- prepare_command_with_sudo only touches the credential fields. -/
theorem prepare_preserves (st : ExecState) (env : Env) (command : String) :
    (prepare_command_with_sudo st env command).2.is_running = st.is_running ∧
    (prepare_command_with_sudo st env command).2.current_process
      = st.current_process := by
  rw [prepare_command_with_sudo]
  split
  · rcases hg : get_sudo_password st env with ⟨opw, st1⟩
    have hgp := get_sudo_password_preserves st env
    rw [hg] at hgp
    rcases opw with _ | password
    · simpa using hgp
    · simp only
      split
      · simpa using hgp
      · rcases hv : validate_sudo_password st1 env password with ⟨b, st2⟩
        have hvp := validate_sudo_password_preserves st1 env password
        rw [hv] at hvp
        rcases b <;> simp only
        · split <;> simp_all
        · simp_all
  · exact ⟨rfl, rfl⟩

/-- Every branch of the try body ends in the finally block, which
clears is_running and current_process. -/
theorem run_process_resets (st : ExecState) (env : Env) (command : String)
    (timeout : Nat) (cmd_list : List String) :
    (run_process st env command timeout cmd_list).state.is_running = false ∧
    (run_process st env command timeout cmd_list).state.current_process = none := by
  rw [run_process]
  repeat' split
  all_goals exact ⟨rfl, rfl⟩

/-- Everything CommandWorker emits is a non-empty rstripped line that
does not contain the credential. -/
theorem command_worker_emit_suppresses (p k : String) (lines : List String) :
    ∀ x ∈ command_worker_emit p k lines, pyContains p x.2 = false ∧ x.2 ≠ "" := by
  intro x hx
  rcases List.mem_filterMap.mp hx with ⟨line, _hline, hsome⟩
  by_cases h1 : line = ""
  · rw [if_pos h1] at hsome
    exact Option.noConfusion hsome
  · rw [if_neg h1] at hsome
    by_cases h2 : pyRstrip line ≠ "" ∧ pyContains p (pyRstrip line) = false
    · rw [if_pos h2] at hsome
      have hx2 := Option.some.inj hsome
      rw [← hx2]
      exact ⟨h2.2, h2.1⟩
    · rw [if_neg h2] at hsome
      exact Option.noConfusion hsome

/-- Processing one pair of queue polls only appends the dequeued lines
verbatim to the forwarded list. -/
theorem consume_mem {pr : String × String} (oi ei : Option (Option String))
    (ls : LoopState) (h : pr ∈ (consume_err ei (consume_out oi ls)).forwarded) :
    pr ∈ ls.forwarded ∨ (pr.1 = "stdout" ∧ oi = some (some pr.2))
      ∨ (pr.1 = "stderr" ∧ ei = some (some pr.2)) := by
  rcases oi with _ | (_ | lo) <;> rcases ei with _ | (_ | le) <;>
    simp only [consume_out, consume_err, List.mem_append, List.mem_singleton] at h <;>
    (try rcases h with h | h) <;> (try rcases h with h | h) <;>
    first
    | exact Or.inl h
    | (subst h; simp)
    | simp

/-- No-redaction property of the supervising loop: every pair in the
forwarded list that the loop adds is tagged with its stream and
carries, verbatim, a line some iteration dequeued. -/
theorem monitor_forward_mem (t : Nat) :
    ∀ (steps : List Step) (ls : LoopState),
      ∀ pr ∈ (monitor t steps ls).2.forwarded,
        pr ∈ ls.forwarded
        ∨ (pr.1 = "stdout" ∧ ∃ s ∈ steps, s.out_item = some (some pr.2))
        ∨ (pr.1 = "stderr" ∧ ∃ s ∈ steps, s.err_item = some (some pr.2))
  | [], ls => by
    intro pr hpr
    rw [monitor] at hpr
    split at hpr <;> exact Or.inl hpr
  | s :: rest, ls => by
    intro pr hpr
    rw [monitor] at hpr
    split at hpr
    · exact Or.inl hpr
    · split at hpr
      · exact Or.inl hpr
      · split at hpr
        · exact Or.inl hpr
        · rcases monitor_forward_mem t rest
              (consume_err s.err_item (consume_out s.out_item ls)) pr hpr with
            h | h | h
          · rcases consume_mem s.out_item s.err_item ls h with h | h | h
            · exact Or.inl h
            · exact Or.inr (Or.inl ⟨h.1, s, List.mem_cons_self s rest, h.2⟩)
            · exact Or.inr (Or.inr ⟨h.1, s, List.mem_cons_self s rest, h.2⟩)
          · rcases h with ⟨h1, s1, hs1, h2⟩
            exact Or.inr (Or.inl ⟨h1, s1, List.mem_cons_of_mem s hs1, h2⟩)
          · rcases h with ⟨h1, s1, hs1, h2⟩
            exact Or.inr (Or.inr ⟨h1, s1, List.mem_cons_of_mem s hs1, h2⟩)

/-- Once validation, the lock pre-flight and command preparation have
passed, execute_command is the try body on the prepared argument
list. -/
theorem exec_reduces (st st1 : ExecState) (env : Env) (command : String)
    (u : Bool) (t : Nat) (cl : List String) (pw : Option String)
    (hsafe : is_command_safe command = true)
    (hlock : (mentions_pacman command && env.pacman_lock_exists && env.qapp) = false)
    (hprep : prepare_command_with_sudo st env command = (.ready cl pw, st1)) :
    execute_command st env command u t = run_process st1 env command t cl := by
  rw [execute_command, hsafe, hlock, hprep]
  simp

/-- The try body records exactly one Popen call with the prepared
argument list, and one child process when Popen does not raise. -/
theorem run_process_effects (st : ExecState) (env : Env) (command : String)
    (timeout : Nat) (cmd_list : List String) (p : ProcBehavior)
    (hne : cmd_list.isEmpty = false)
    (hspawn : env.spawn cmd_list = .proc p) :
    (run_process st env command timeout cmd_list).effects.popen_calls = [cmd_list] ∧
    (run_process st env command timeout cmd_list).effects.processes_created = 1 := by
  rw [run_process, if_neg (by simp [hne]), hspawn]
  rcases hmon : monitor timeout p.steps initLoopState with ⟨ex, ls⟩
  simp only [hmon]
  rcases ex <;> exact ⟨rfl, rfl⟩

/-! ### Claim theorems -/

/-- C1: the claim says every failure mode inside execute_command,
including internal errors raised in the pacman-lock handling branch,
is converted into a FAILED CommandResult and never propagates to the
caller.  The code violates this: running a pacman command while the
lock file exists and a QApplication is present reaches the
QMessageBox reference, a name the module never imports, so
execute_command raises an uncaught NameError instead of returning a
result.  This theorem evaluates the embedded code at that failing
input. -/
theorem c1_lock_branch_uncaught_nameError :
    execute_command ExecState.init lockEnv "pacman -Syu" =
      { ret := .error (.nameError "QMessageBox")
        state := ExecState.init
        effects := noEffects } := rfl

/-- C2 counterexample: the claim says a run that exceeds the timeout
returns a result whose status is a dedicated Timeout status.  The code
has no such status: the timeout result carries CommandStatus.failed,
the very status an ordinary nonzero exit produces, and the two runs
below are distinguished only by the stderr marker text. -/
theorem c2_counterexample :
    (execute_command ExecState.init timeoutEnv "ls").ret =
      .ok { command := "ls", status := .failed, return_code := -1, stdout := ""
            stderr := "\nTimeout reached", execution_time := 301 }
    ∧ (execute_command ExecState.init runFailEnv "ls").ret =
      .ok { command := "ls", status := .failed, return_code := 1, stdout := ""
            stderr := "", execution_time := 1 } :=
  ⟨rfl, rfl⟩

/-- C2 (amended): when the supervising loop observes that the elapsed
time exceeds a nonzero timeoutSeconds, execute_command terminates the
process group (SIGTERM, then SIGKILL if still alive) and returns a
result with status FAILED (not a dedicated Timeout status, which does
not exist), return code -1, the partial stdout and stderr captured so
far, and the marker Timeout reached appended to stderr on a new
line. -/
theorem c2_amended (st st1 : ExecState) (env : Env) (command : String)
    (u : Bool) (t : Nat) (cl : List String) (pw : Option String)
    (p : ProcBehavior) (e : Nat) (ls : LoopState)
    (hsafe : is_command_safe command = true)
    (hlock : (mentions_pacman command && env.pacman_lock_exists && env.qapp) = false)
    (hprep : prepare_command_with_sudo st env command = (.ready cl pw, st1))
    (hne : cl.isEmpty = false)
    (hspawn : env.spawn cl = .proc p)
    (hmon : monitor t p.steps initLoopState = (.timed_out e, ls)) :
    execute_command st env command u t =
      { ret := .ok { command := command, status := .failed, return_code := -1
                     stdout := joinLines ls.stdout_lines
                     stderr := joinLines ls.stderr_lines ++ "\nTimeout reached"
                     execution_time := e }
        state := execFinally st1 false
        effects := { popen_calls := [cl], processes_created := 1
                     forwarded := ls.forwarded, term_signals := termSignals p } }
    ∧ 15 ∈ termSignals p := by
  constructor
  · rw [exec_reduces st st1 env command u t cl pw hsafe hlock hprep,
      run_process, if_neg (by simp [hne]), hspawn]
    simp only [hmon]
  · simp [termSignals]

/-- C2 witness: the amended timeout theorem applied to a concrete
301-second-silent process under the default 300 second timeout. -/
theorem c2_witness :
    execute_command ExecState.init timeoutEnv "ls" true 300 =
      { ret := .ok { command := "ls", status := .failed, return_code := -1
                     stdout := joinLines initLoopState.stdout_lines
                     stderr := joinLines initLoopState.stderr_lines ++ "\nTimeout reached"
                     execution_time := 301 }
        state := execFinally ExecState.init false
        effects := { popen_calls := [["ls"]], processes_created := 1
                     forwarded := initLoopState.forwarded
                     term_signals := termSignals timeoutProc } }
    ∧ 15 ∈ termSignals timeoutProc :=
  c2_amended ExecState.init ExecState.init timeoutEnv "ls" true 300
    ["ls"] none timeoutProc 301 initLoopState rfl rfl rfl rfl rfl rfl

/-- C3 counterexample: the claim says a command whose base executable
is outside a fixed allowlist is rejected without spawning a process.
The code has no allowlist: curl http://evil passes validation and is
passed to Popen, creating a child process. -/
theorem c3_counterexample :
    is_command_safe "curl http://evil" = true
    ∧ (execute_command ExecState.init runOkEnv "curl http://evil").effects.popen_calls
        = [["curl", "http://evil"]]
    ∧ (execute_command ExecState.init runOkEnv
        "curl http://evil").effects.processes_created = 1 :=
  ⟨rfl, rfl, rfl⟩

/-- C3 (amended): validation is only the dangerous-substring denylist;
there is no executable allowlist.  Every command that passes the
denylist (and does not hit the pacman-lock branch or a password
rejection) is handed to Popen exactly as prepared and spawns one
child process, whatever its base executable is; pacman commands pass
validation the same way. -/
theorem c3_amended (st st1 : ExecState) (env : Env) (command : String)
    (u : Bool) (t : Nat) (cl : List String) (pw : Option String)
    (p : ProcBehavior)
    (hsafe : is_command_safe command = true)
    (hlock : (mentions_pacman command && env.pacman_lock_exists && env.qapp) = false)
    (hprep : prepare_command_with_sudo st env command = (.ready cl pw, st1))
    (hne : cl.isEmpty = false)
    (hspawn : env.spawn cl = .proc p) :
    (execute_command st env command u t).effects.popen_calls = [cl]
    ∧ (execute_command st env command u t).effects.processes_created = 1 := by
  rw [exec_reduces st st1 env command u t cl pw hsafe hlock hprep]
  exact run_process_effects st1 env command t cl p hne hspawn

/-- C3 witness: the amended theorem applied to the unlisted executable
curl, plus the denylist pass of pacman -Syu. -/
theorem c3_witness :
    ((execute_command ExecState.init runOkEnv
        "curl http://evil" true 300).effects.popen_calls = [["curl", "http://evil"]]
      ∧ (execute_command ExecState.init runOkEnv
          "curl http://evil" true 300).effects.processes_created = 1)
    ∧ is_command_safe "pacman -Syu" = true :=
  ⟨c3_amended ExecState.init ExecState.init runOkEnv "curl http://evil" true 300
      ["curl", "http://evil"] none okProc rfl rfl rfl rfl rfl,
   rfl⟩

/-- C4 counterexample: the claim says no output line containing the
exact cached credential is forwarded verbatim to the output sink.  In
the core executor there is no filtering at all: with the credential
hunter2 cached, a run of sudo ls whose child prints the line hunter2
forwards the pair (stdout, hunter2) verbatim to the callback. -/
theorem c4_counterexample :
    (execute_command cachedCredState credentialEnv "sudo ls").effects.forwarded
      = [("stdout", "hunter2")]
    ∧ cachedCredState.sudo_password = some "hunter2"
    ∧ pyContains "hunter2" "hunter2" = true :=
  ⟨rfl, rfl, rfl⟩

/-- C4 (amended): only the GUI CommandWorker filters credential
leakage, by suppression: every pair it emits is a non-empty rstripped
line that does not contain the credential.  The core executor loop of
execute_command performs no redaction: every pair it forwards is
tagged with its stream and carries, verbatim, a line dequeued from
the reader queues, so a line equal to the cached credential is
forwarded unchanged there. -/
theorem c4_amended :
    (∀ p k lines, ∀ x ∈ command_worker_emit p k lines,
        pyContains p x.2 = false ∧ x.2 ≠ "")
    ∧ (∀ t steps ls, ∀ pr ∈ (monitor t steps ls).2.forwarded,
        pr ∈ ls.forwarded
        ∨ (pr.1 = "stdout" ∧ ∃ s ∈ steps, s.out_item = some (some pr.2))
        ∨ (pr.1 = "stderr" ∧ ∃ s ∈ steps, s.err_item = some (some pr.2))) :=
  ⟨command_worker_emit_suppresses,
   fun t steps ls => monitor_forward_mem t steps ls⟩

/-- C4 witness: the worker suppression applied to a concrete emitted
line, and the verbatim-forwarding property applied to the concrete
credential-printing schedule. -/
theorem c4_witness :
    (pyContains "hunter2" "ok" = false ∧ ("ok" : String) ≠ "")
    ∧ (("stdout", "hunter2") ∈ initLoopState.forwarded
       ∨ (("stdout", "hunter2").1 = "stdout"
          ∧ ∃ s ∈ credProc.steps, s.out_item = some (some ("stdout", "hunter2").2))
       ∨ (("stdout", "hunter2").1 = "stderr"
          ∧ ∃ s ∈ credProc.steps, s.err_item = some (some ("stdout", "hunter2").2))) := by
  have hemit : command_worker_emit "hunter2" "stdout" ["ok"] = [("stdout", "ok")] := rfl
  have hmon : (monitor 300 credProc.steps initLoopState).2.forwarded
      = [("stdout", "hunter2")] := rfl
  refine ⟨c4_amended.1 "hunter2" "stdout" ["ok"] ("stdout", "ok") ?_,
    c4_amended.2 300 credProc.steps initLoopState ("stdout", "hunter2") ?_⟩
  · rw [hemit]
    exact List.mem_singleton.mpr rfl
  · rw [hmon]
    exact List.mem_singleton.mpr rfl

/-- C5 counterexample: the claim says a trimmed-empty command is
rejected with a policy status before any process creation is
attempted.  In the code the empty command passes validation, Popen is
invoked on the empty argument list (raising IndexError), and the
caller gets the generic execution-error FAILED result, not a policy
rejection. -/
theorem c5_counterexample :
    execute_command ExecState.init baseEnv "" =
      { ret := .ok { command := "", status := .failed, return_code := -1
                     stdout := ""
                     stderr := "Execution error: list index out of range"
                     execution_time := 0 }
        state := execFinally ExecState.init false
        effects := { noEffects with popen_calls := [[]] } }
    ∧ is_command_safe "" = true :=
  ⟨rfl, rfl⟩

/-- C5 (amended): a command whose trimmed form is empty passes
validation; its whitespace-split argument list is empty, the Popen
call on it raises IndexError before any child process exists, and the
except block converts that into a FAILED result with the
execution-error text.  No OS process is created, but not because the
request was rejected by policy. -/
theorem c5_amended (st : ExecState) (env : Env) (u : Bool) (t : Nat)
    (command : String) (h : pyStrip command = "") :
    execute_command st env command u t =
      { ret := .ok { command := command, status := .failed, return_code := -1
                     stdout := ""
                     stderr := "Execution error: list index out of range"
                     execution_time := 0 }
        state := execFinally st false
        effects := { noEffects with popen_calls := [[]] } } := by
  have hsp := allspace_of_pyStrip_empty h
  have hsafe := is_command_safe_of_space hsp
  have hpac := mentions_pacman_of_space hsp
  have hsplit : pySplit command = [] := pySplit_of_strip_empty h
  have hns : pyStartsWith (pyStrip command) "sudo" = false := by rw [h]; rfl
  have hlock : (mentions_pacman command && env.pacman_lock_exists && env.qapp)
      = false := by rw [hpac]; rfl
  have hprep : prepare_command_with_sudo st env command
      = (.ready (pySplit command) none, st) := by
    simp [prepare_command_with_sudo, hns]
  rw [exec_reduces st st env command u t (pySplit command) none hsafe hlock hprep,
    hsplit]
  rfl

/-- C5 witness: the amended theorem applied to the all-whitespace
command consisting of three blanks. -/
theorem c5_witness :
    execute_command ExecState.init baseEnv "   " true 300 =
      { ret := .ok { command := "   ", status := .failed, return_code := -1
                     stdout := ""
                     stderr := "Execution error: list index out of range"
                     execution_time := 0 }
        state := execFinally ExecState.init false
        effects := { noEffects with popen_calls := [[]] } } :=
  c5_amended ExecState.init baseEnv true 300 "   " rfl

/-- C6 counterexample: the claim says that with use_sudo true the
command actually run is the original command with the elevation token
prepended.  Running ls -la with use_sudo true passes Popen exactly
the tokens ls -la, with no sudo anywhere. -/
theorem c6_counterexample :
    (execute_command ExecState.init runOkEnv "ls -la" true 300).effects.popen_calls
      = [["ls", "-la"]]
    ∧ "sudo" ∉ ["ls", "-la"] :=
  ⟨rfl, by simp⟩

/-- C6 (amended): the use_sudo flag is dead: execute_command never
reads it, so both flag values give identical behaviour, and a command
that does not itself start with sudo is prepared as its whitespace
tokens unchanged, with no elevation token and no credential piped.
Only a command already starting with sudo is rewritten (to sudo -S
plus the remaining tokens, with the credential piped to stdin). -/
theorem c6_amended (st : ExecState) (env : Env) (command : String) (t : Nat)
    (hns : pyStartsWith (pyStrip command) "sudo" = false) :
    (∀ u1 u2 : Bool,
        execute_command st env command u1 t = execute_command st env command u2 t)
    ∧ prepare_command_with_sudo st env command
        = (.ready (pySplit command) none, st) := by
  constructor
  · intro u1 u2
    rfl
  · simp [prepare_command_with_sudo, hns]

/-- C6 witness: the amended theorem applied to ls -la. -/
theorem c6_witness :
    execute_command ExecState.init runOkEnv "ls -la" true 300
      = execute_command ExecState.init runOkEnv "ls -la" false 300
    ∧ prepare_command_with_sudo ExecState.init runOkEnv "ls -la"
      = (.ready ["ls", "-la"] none, ExecState.init) := by
  have h := c6_amended ExecState.init runOkEnv "ls -la" 300 rfl
  exact ⟨h.1 true false, h.2⟩

/-- C7 counterexample: the claim says a denylisted command yields a
dedicated RejectedByPolicy status.  The code returns
CommandStatus.failed for the blocked command, the same status
constructor an ordinary nonzero exit produces; only the stderr text
differs. -/
theorem c7_counterexample :
    (execute_command ExecState.init baseEnv "rm -rf /").ret =
      .ok { command := "rm -rf /", status := .failed, return_code := -1
            stdout := "", stderr := "Command blocked for safety reasons"
            execution_time := 0 }
    ∧ (execute_command ExecState.init runFailEnv "true").ret =
      .ok { command := "true", status := .failed, return_code := 1, stdout := ""
            stderr := "", execution_time := 1 } :=
  ⟨rfl, rfl⟩

/-- C7 (amended): a command containing a denylisted substring under
lowercased substring matching is rejected before any Popen call with
status FAILED (there is no dedicated policy-rejection status), return
code -1, the blocked-for-safety message and execution time zero, and
the executor state is untouched. -/
theorem c7_amended (st : ExecState) (env : Env) (command : String) (u : Bool)
    (t : Nat) (h : is_command_safe command = false) :
    execute_command st env command u t =
      { ret := .ok { command := command, status := .failed, return_code := -1
                     stdout := "", stderr := "Command blocked for safety reasons"
                     execution_time := 0 }
        state := st, effects := noEffects }
    ∧ ∀ pattern ∈ dangerous_patterns,
        pyContains pattern (pyLower command) = true →
        is_command_safe command = false := by
  constructor
  · simp [execute_command, h]
  · intro pattern hp hc
    have hany : dangerous_patterns.any
        (fun pattern => pyContains pattern (pyLower command)) = true :=
      List.any_eq_true.mpr ⟨pattern, hp, hc⟩
    simp [is_command_safe, hany]

/-- C7 witness: the amended theorem applied to the uppercase variant
RM -RF / of the denylisted pattern rm -rf /. -/
theorem c7_witness :
    execute_command ExecState.init baseEnv "RM -RF /" true 300 =
      { ret := .ok { command := "RM -RF /", status := .failed, return_code := -1
                     stdout := "", stderr := "Command blocked for safety reasons"
                     execution_time := 0 }
        state := ExecState.init, effects := noEffects }
    ∧ is_command_safe "RM -RF /" = false := by
  have h := c7_amended ExecState.init baseEnv "RM -RF /" true 300 rfl
  exact ⟨h.1, h.2 "rm -rf /" (List.mem_cons_self _ _) rfl⟩

/-- C8: execute_queue runs entries in insertion order, marks an
executed entry completed exactly when its result status is SUCCESS and
failed otherwise, and stops at the first non-success result, leaving
later entries pending; for a queue of three commands whose second
fails, the third stays pending and get_progress reports (2, 3),
counting completed and failed entries only. -/
theorem c8_queue_fail_fast (env : Env) (st st1 st2 : ExecState)
    (c1 c2 c3 d1 d2 d3 : String) (r1 r2 : CommandResult) (ef1 ef2 : Effects)
    (h1 : execute_command st env c1 = ⟨.ok r1, st1, ef1⟩)
    (h2 : execute_command st1 env c2 = ⟨.ok r2, st2, ef2⟩)
    (hs1 : r1.status = CommandStatus.success)
    (hs2 : r2.status ≠ CommandStatus.success) :
    execute_queue
      { queue := [{ command := c1, description := d1, status := "pending", result := none },
                  { command := c2, description := d2, status := "pending", result := none },
                  { command := c3, description := d3, status := "pending", result := none }]
        is_running := false, current_index := 0 } env st =
      (.ok true,
       { queue := [{ command := c1, description := d1, status := "completed", result := some r1 },
                   { command := c2, description := d2, status := "failed", result := some r2 },
                   { command := c3, description := d3, status := "pending", result := none }]
         is_running := false, current_index := 1 }, st2)
    ∧ get_progress
        { queue := [{ command := c1, description := d1, status := "completed", result := some r1 },
                    { command := c2, description := d2, status := "failed", result := some r2 },
                    { command := c3, description := d3, status := "pending", result := none }]
          is_running := false, current_index := 1 } = (2, 3) := by
  constructor
  · simp only [execute_queue, execute_queue_loop, h1, h2, hs1, hs2]
    simp
  · rfl

/-- C8 witness: the fail-fast theorem applied to the concrete queue
ls, false, true in the world where exactly ls succeeds. -/
theorem c8_witness :
    execute_queue
      { queue := [{ command := "ls", description := "", status := "pending", result := none },
                  { command := "false", description := "", status := "pending", result := none },
                  { command := "true", description := "", status := "pending", result := none }]
        is_running := false, current_index := 0 } queueEnv ExecState.init =
      (.ok true,
       { queue := [{ command := "ls", description := "", status := "completed"
                     result := some { command := "ls", status := .success, return_code := 0
                                      stdout := "", stderr := "", execution_time := 1 } },
                   { command := "false", description := "", status := "failed"
                     result := some { command := "false", status := .failed, return_code := 1
                                      stdout := "", stderr := "", execution_time := 1 } },
                   { command := "true", description := "", status := "pending", result := none }]
         is_running := false, current_index := 1 }, ExecState.init)
    ∧ get_progress
        { queue := [{ command := "ls", description := "", status := "completed"
                      result := some { command := "ls", status := .success, return_code := 0
                                       stdout := "", stderr := "", execution_time := 1 } },
                    { command := "false", description := "", status := "failed"
                      result := some { command := "false", status := .failed, return_code := 1
                                       stdout := "", stderr := "", execution_time := 1 } },
                    { command := "true", description := "", status := "pending", result := none }]
          is_running := false, current_index := 1 } = (2, 3) :=
  c8_queue_fail_fast queueEnv ExecState.init ExecState.init ExecState.init
    "ls" "false" "true" "" "" ""
    { command := "ls", status := .success, return_code := 0
      stdout := "", stderr := "", execution_time := 1 }
    { command := "false", status := .failed, return_code := 1
      stdout := "", stderr := "", execution_time := 1 }
    { popen_calls := [["ls"]], processes_created := 1, forwarded := [], term_signals := [] }
    { popen_calls := [["false"]], processes_created := 1, forwarded := [], term_signals := [] }
    rfl rfl rfl (by decide)

/-- C9: when execute_command is entered with is_running false and
current_process none, both fields hold those values again on every
return path: the early safety rejection and password rejection leave
the state untouched, and every path through the try body runs the
finally block, which clears both. -/
theorem c9_state_restored (st : ExecState) (env : Env) (command : String)
    (u : Bool) (t : Nat)
    (h1 : st.is_running = false) (h2 : st.current_process = none) :
    (execute_command st env command u t).state.is_running = false
    ∧ (execute_command st env command u t).state.current_process = none := by
  rw [execute_command]
  split
  · exact ⟨h1, h2⟩
  · split
    · exact ⟨h1, h2⟩
    · rcases hp : prepare_command_with_sudo st env command with ⟨o, st1⟩
      have hpre := prepare_preserves st env command
      rw [hp] at hpre
      rcases o with reason | ⟨cl, pw⟩
      · simp only [hp]
        rw [hpre.1, hpre.2] at *
        exact ⟨h1, h2⟩
      · simp only [hp]
        exact run_process_resets st1 env command t cl

/-- C9 witness: the restoration theorem applied to a concrete
successful run from the initial state. -/
theorem c9_witness :
    (execute_command ExecState.init runOkEnv "ls" true 300).state.is_running = false
    ∧ (execute_command ExecState.init runOkEnv
        "ls" true 300).state.current_process = none :=
  c9_state_restored ExecState.init runOkEnv "ls" true 300 rfl rfl

/-- An already-running queue, for the re-entry claim. -/
def busyQueue : CommandQueue :=
  { queue := [{ command := "ls", description := "", status := "pending", result := none }]
    is_running := true, current_index := 0 }

/-- C10: calling execute_queue on a queue whose is_running flag is
already true returns False immediately, leaves every entry, the
cursor and the executor state untouched, and never invokes the
executor. -/
theorem c10_queue_busy (q : CommandQueue) (env : Env) (st : ExecState)
    (h : q.is_running = true) :
    execute_queue q env st = (.ok false, q, st) := by
  rw [execute_queue, if_pos h]

/-- C10 witness: the re-entry theorem applied to a concrete busy
queue. -/
theorem c10_witness :
    execute_queue busyQueue baseEnv ExecState.init =
      (.ok false, busyQueue, ExecState.init) :=
  c10_queue_busy busyQueue baseEnv ExecState.init rfl

end ArchTool
